import Mathlib

/-!
Shallow embedding of the dynamic-pricing core of the Hanco-AI backend.

Sources embedded here:
* `src/backend/app/api/v1/pricing.py` — `_map_duration_to_key`, the `/quote`
  endpoint validation and duration computation, `compute_vehicle_price`
  (rule price, guardrails, blend, bounded rounding, decision and cache
  writes), `apply_pricing_recommendation`.
* `src/backend/app/core/firebase.py` — `update_vehicle_base_rate`.
* `src/backend/app/services/pricing/rule_engine.py` —
  `PricingRuleEngine._calculate_utilization_factor`.
* `src/backend/app/services/competitors/crawler.py` —
  `_generate_offer_hash`, `_check_duplicate_offer`, and the
  dedup-then-batch-write loop of `scrape_provider_city`.

Python floats are modelled as rationals; Python `round` is round-half-to-even,
`int()` truncates toward zero, `math.floor` / `math.ceil` are `Int.floor` /
`Int.ceil`, `str.lower()` is an ASCII lowercase map.  Timestamps are modelled
as integer minutes.
-/

/-- Python `round` on a rational: round half to even (bankers rounding). -/
def pyRound (q : ℚ) : ℤ :=
  let f : ℤ := ⌊q⌋
  let r : ℚ := q - f
  if r < 1/2 then f
  else if 1/2 < r then f + 1
  else if f % 2 = 0 then f else f + 1

/-- Python `int()` on a rational: truncation toward zero. -/
def pyInt (q : ℚ) : ℤ := if 0 ≤ q then ⌊q⌋ else ⌈q⌉

/-- ASCII lowercase of one character, as Python `str.lower()` acts on the
ASCII identifiers appearing in the source. -/
def pyLowerChar (c : Char) : Char :=
  if c.isUpper then Char.ofNat (c.toNat + 32) else c

/-- Python `str.lower()` on ASCII strings. -/
def pyLower (s : String) : String := String.mk (s.data.map pyLowerChar)

/-- `_map_duration_to_key` from `pricing.py`: map rental duration to
D1/D3/D7/M1. -/
def map_duration_to_key (duration_days : ℤ) : String :=
  if duration_days = 1 then "D1"
  else if 2 ≤ duration_days ∧ duration_days ≤ 4 then "D3"
  else if 5 ≤ duration_days ∧ duration_days ≤ 10 then "D7"
  else "M1"

/-- `VehicleQuoteInput` from `pricing.py`: vehicle data for quote pricing.
`cost_per_day` is a required float there; `branch_type` is optional with
default "City". -/
structure VehicleQuoteInput where
  vehicle_id : String
  class_bucket : String
  base_daily_rate : ℚ
  cost_per_day : ℚ
  branch_type : Option String := some "City"
deriving Repr, DecidableEq

/-- The airport test of `compute_vehicle_price`:
`vehicle.branch_type and vehicle.branch_type.lower() == "airport"`. -/
def is_airport_branch (bt : Option String) : Bool :=
  match bt with
  | some s => pyLower s == "airport"
  | none => false

/-- Step 6 of `compute_vehicle_price`: the locally computed rule price with
duration discounts (15% at 30+ days, else 7% at 7+, else 3% at 3+), airport
premium (5%) and weekend premium (3%), in source order. -/
def quote_rule_price (v : VehicleQuoteInput) (duration_days : ℤ) (is_weekend : Bool) : ℚ :=
  let r0 := v.base_daily_rate
  let r1 :=
    if duration_days ≥ 30 then r0 * (1 - 15/100)
    else if duration_days ≥ 7 then r0 * (1 - 7/100)
    else if duration_days ≥ 3 then r0 * (1 - 3/100)
    else r0
  let r2 := if is_airport_branch v.branch_type then r1 * (1 + 5/100) else r1
  if is_weekend then r2 * (1 + 3/100) else r2

/-- The cost floor of step 7 of `compute_vehicle_price`:
`vehicle.cost_per_day * (1 + MIN_MARGIN) if vehicle.cost_per_day else
vehicle.base_daily_rate * 0.70` (Python truthiness: a zero cost takes the
else branch). -/
def cost_floor (v : VehicleQuoteInput) : ℚ :=
  if v.cost_per_day ≠ 0 then v.cost_per_day * (1 + 15/100)
  else v.base_daily_rate * (70/100)

/-- `has_competitor_data` of step 7.  The market stats dictionary is modelled
by its median (`none` when the stats or the median field are absent); the
check is `market_stats and market_stats.get('median') and
market_stats.get('median') > 0`. -/
def has_competitor_data (m : Option ℚ) : Bool :=
  match m with
  | some med => decide (med ≠ 0) && decide (0 < med)
  | none => false

/-- The floor price of step 7 of `compute_vehicle_price` (before the
profit-first override): `max(cost_floor, market_ref * 0.85)` with market data,
else `max(cost_floor, base_daily_rate * 0.80)`. -/
def floor_price (v : VehicleQuoteInput) (m : Option ℚ) : ℚ :=
  if has_competitor_data m then
    max (cost_floor v) ((m.getD 0) * (85/100))
  else
    max (cost_floor v) (v.base_daily_rate * (80/100))

/-- The ceiling price of step 7 of `compute_vehicle_price` (before the
profit-first override): `market_ref * (1 + MARKET_CAP_PCT)` with market data,
else `base_daily_rate * 1.10`. -/
def ceiling_price (v : VehicleQuoteInput) (m : Option ℚ) : ℚ :=
  if has_competitor_data m then (m.getD 0) * (1 + 10/100)
  else v.base_daily_rate * (110/100)

/-- The intermediate values of steps 6-10 of `compute_vehicle_price` on the
success path (the code records most of them in the breakdown dict).
`ceilingP` is the ceiling after the profit-first override. -/
structure PriceBreakdown where
  ml_price : ℚ
  rule_price : ℚ
  blended : ℚ
  floorP : ℚ
  ceilingP : ℚ
  clamped : ℚ
  step : ℚ
  finalP : ℚ
deriving Repr, DecidableEq

/-- Steps 6-10 of `compute_vehicle_price`: rule price, guardrails with
profit-first override, 60/40 blend, clamp, bounded rounding, final clamp. -/
def compute_price_core (v : VehicleQuoteInput) (duration_days : ℤ) (is_weekend : Bool)
    (m : Option ℚ) (ml_price : ℚ) : PriceBreakdown :=
  let rule := quote_rule_price v duration_days is_weekend
  let fl := floor_price v m
  let ce0 := ceiling_price v m
  let ce := if fl > ce0 then fl else ce0
  let blended := (6/10) * rule + (4/10) * ml_price
  let clamped := max fl (min blended ce)
  let step : ℚ := if clamped ≥ 50 then 5 else 1
  let r0 : ℚ := (pyRound (clamped / step) : ℤ) * step
  let r1 := if r0 > ce then ((⌊ce / step⌋ : ℤ) : ℚ) * step else r0
  let r2 := if r1 < fl then ((⌈fl / step⌉ : ℤ) : ℚ) * step else r1
  let finalP := max fl (min r2 ce)
  ⟨ml_price, rule, blended, fl, ce, clamped, step, finalP⟩

/-- Result of `compute_vehicle_price` for one vehicle: returned prices, the
breakdown (absent on the error path), whether a pricing decision record was
written and with which `model_version`, and the error/cached flags. -/
structure VehiclePriceOutput where
  daily_price : ℚ
  total_price : ℚ
  breakdown : Option PriceBreakdown
  decision_model_version : Option String
  error_fallback : Bool
  cached : Bool
deriving Repr, DecidableEq

/-- `compute_vehicle_price` on the non-cached path.  The numeric predictor
`predict_price` is a capability: its outcome is passed as an `Except` value; a
raised exception (`Except.error`) lands in the handler, which returns the base
daily rate with an error breakdown and writes neither a decision record nor a
cache entry.  On success one decision record with `model_version = "onnx_v1"`
is written. -/
def compute_vehicle_price (v : VehicleQuoteInput) (duration_days : ℤ) (is_weekend : Bool)
    (m : Option ℚ) (ml_result : Except Unit ℚ) : VehiclePriceOutput :=
  match ml_result with
  | .ok ml =>
      let b := compute_price_core v duration_days is_weekend m ml
      ⟨b.finalP, b.finalP * (duration_days : ℚ), some b, some "onnx_v1", false, false⟩
  | .error _ =>
      ⟨v.base_daily_rate, v.base_daily_rate * (duration_days : ℚ), none, none, true, false⟩

/-- The weekend test of the quote endpoint: `pickup_date.weekday() in [3, 4, 5]`
(Thursday, Friday, Saturday). -/
def is_weekend_weekday (weekday : ℕ) : Bool :=
  weekday == 3 || weekday == 4 || weekday == 5

/-- Date validation of the `/quote` endpoint: reject when dropoff is not after
pickup or the pickup date precedes today.  Instants are minutes; dates are day
numbers. -/
def quote_accepted (pickup_min dropoff_min pickup_date today : ℤ) : Bool :=
  decide (pickup_min < dropoff_min) && decide (today ≤ pickup_date)

/-- Duration computation of the `/quote` endpoint:
`max(1, (dropoff_at - pickup_at).days)`; `timedelta.days` floor-divides the
difference by one day (1440 minutes). -/
def quote_duration_days (pickup_min dropoff_min : ℤ) : ℤ :=
  max 1 (Int.fdiv (dropoff_min - pickup_min) 1440)

/-- `PricingRuleEngine._calculate_utilization_factor` from `rule_engine.py`. -/
def calculate_utilization_factor (utilization_rate : ℚ) : ℚ :=
  if utilization_rate < 3/10 then 9/10
  else if utilization_rate < 1/2 then 19/20
  else if utilization_rate < 7/10 then 1
  else if utilization_rate < 17/20 then 11/10
  else 6/5

/-! ## Atomic rate mutator (`firebase.py` and the `/apply` endpoint) -/

/-- Vehicle document fields read by the rate mutator.  Both fields may be
absent in Firestore, hence `Option`. -/
structure VehicleDoc where
  base_daily_rate : Option ℚ
  cost_per_day : Option ℚ
deriving Repr, DecidableEq

/-- One `vehicle_history` record as written by `update_vehicle_base_rate`
(the fields the claims are about).  The code stores the old rate as
`float(old) if old_base_daily_rate else None`. -/
structure HistoryRecord where
  old_base_daily_rate : Option ℚ
  new_base_daily_rate : ℚ
  reason : String
deriving Repr, DecidableEq

/-- The store state touched by the mutator: the vehicle document (for one
fixed vehicle id) and the `vehicle_history` collection. -/
structure MutState where
  vehicle : Option VehicleDoc
  history : List HistoryRecord
deriving Repr, DecidableEq

/-- Status values returned by `update_vehicle_base_rate`. -/
inductive UpdateStatus where
  | updated
  | no_change
  | error
deriving Repr, DecidableEq

/-- The `old_base_daily_rate` field the history record stores:
`float(old_base_daily_rate) if old_base_daily_rate else None`. -/
def old_rate_for_history (old : Option ℚ) : Option ℚ :=
  match old with
  | some o => if o ≠ 0 then some o else none
  | none => none

/-- `update_vehicle_base_rate` from `firebase.py`: validate `new_rate > 0`,
read the vehicle (missing is an error), return `no_change` when the stored
rate already equals the new rate, otherwise atomically append one history
record and patch the vehicle rate. -/
def update_vehicle_base_rate (st : MutState) (new_rate : ℚ) (reason : String) :
    UpdateStatus × MutState :=
  if new_rate ≤ 0 then (.error, st)
  else
    match st.vehicle with
    | none => (.error, st)
    | some veh =>
        if veh.base_daily_rate = some new_rate then (.no_change, st)
        else
          (.updated,
            { vehicle := some { veh with base_daily_rate := some new_rate },
              history := st.history ++
                [⟨old_rate_for_history veh.base_daily_rate, new_rate, reason⟩] })

/-- Status values the `/apply` endpoint can produce (HTTP errors included;
422 is the pydantic `gt=0` validation of `new_base_daily_rate`). -/
inductive ApplyStatus where
  | applied
  | no_change
  | http_not_found
  | http_bad_request
  | http_server_error
  | http_unprocessable
deriving Repr, DecidableEq

/-- The cost-floor validation of `apply_pricing_recommendation`:
`if cost_per_day and cost_per_day > 0: if new_base_daily_rate < cost_per_day`
raises 400. -/
def apply_cost_check_fails (cost : Option ℚ) (new_rate : ℚ) : Bool :=
  match cost with
  | some c => decide (c ≠ 0) && decide (0 < c) && decide (new_rate < c)
  | none => false

/-- `apply_pricing_recommendation` from `pricing.py`: pydantic requires
`new_base_daily_rate > 0`; the vehicle is fetched (404 when missing); when
`cost_per_day` is truthy and positive a new rate below it is rejected with
400; otherwise `update_vehicle_base_rate` runs and its `updated` result is
reported as `applied`. -/
def apply_pricing_recommendation (st : MutState) (new_rate : ℚ) :
    ApplyStatus × MutState :=
  if ¬ (0 < new_rate) then (.http_unprocessable, st)
  else
    match st.vehicle with
    | none => (.http_not_found, st)
    | some veh =>
        if apply_cost_check_fails veh.cost_per_day new_rate then (.http_bad_request, st)
        else
          match update_vehicle_base_rate st new_rate "apply_recommendation" with
          | (.error, st2) => (.http_server_error, st2)
          | (.no_change, st2) => (.no_change, st2)
          | (.updated, st2) => (.applied, st2)

/-! ## Competitor crawler (`crawler.py`) -/

/-- The composite key of `_generate_offer_hash`:
`f"{provider}|{branch}|{vehicle_class}|{int(price)}"`.  The code takes the md5
digest of this key; the digest is a fixed function of the key, so the claims
about hash equality and deduplication are settled on the key itself. -/
def generate_offer_hash (provider branch vehicle_class : String) (price : ℚ) : String :=
  provider ++ "|" ++ branch ++ "|" ++ vehicle_class ++ "|" ++ toString (pyInt price)

/-- The key the spec describes for the hash, with the price rounded to the
nearest integer (`round(price)`), for comparison with the source key. -/
def spec_offer_hash_key (provider branch vehicle_class : String) (price : ℚ) : String :=
  provider ++ "|" ++ branch ++ "|" ++ vehicle_class ++ "|" ++ toString (pyRound price)

/-- One scraped offer, as used by the save loop of `scrape_provider_city`. -/
structure Offer where
  provider : String
  city : String
  category : String
  price : ℚ
deriving Repr, DecidableEq

/-- One committed `competitor_prices_latest` snapshot (the fields the dedup
query reads). -/
structure Snapshot where
  hash : String
  scraped_at : ℤ
deriving Repr, DecidableEq

/-- `_check_duplicate_offer`: true iff the committed store holds a snapshot
with the same hash and `scraped_at >= now - hours` (times in minutes). -/
def check_duplicate_offer (store : List Snapshot) (offer_hash : String)
    (now : ℤ) (hours : ℤ) : Bool :=
  let cutoff := now - hours * 60
  store.any (fun s => s.hash == offer_hash && decide (cutoff ≤ s.scraped_at))

/-- The save loop of `scrape_provider_city`: for each offer compute the hash,
skip it when `_check_duplicate_offer` finds a committed snapshot in the 6-hour
window, else add a new document to the batch.  The dedup query reads only the
committed store: the batch is committed after the loop, so offers of the same
batch are never checked against each other.  Returns (batch documents, saved
count, skipped count). -/
def save_offers_batch (store : List Snapshot) (offers : List Offer) (now : ℤ) :
    List Snapshot × ℕ × ℕ :=
  match offers with
  | [] => ([], 0, 0)
  | o :: rest =>
      let h := generate_offer_hash o.provider o.city o.category o.price
      let prev := save_offers_batch store rest now
      if check_duplicate_offer store h now 6 then
        (prev.1, prev.2.1, prev.2.2 + 1)
      else
        (⟨h, now⟩ :: prev.1, prev.2.1 + 1, prev.2.2)

/-! ## Helper lemmas -/

lemma compute_price_core_floorP (v : VehicleQuoteInput) (d : ℤ) (w : Bool)
    (m : Option ℚ) (ml : ℚ) :
    (compute_price_core v d w m ml).floorP = floor_price v m := rfl

lemma compute_price_core_ceilingP (v : VehicleQuoteInput) (d : ℤ) (w : Bool)
    (m : Option ℚ) (ml : ℚ) :
    (compute_price_core v d w m ml).ceilingP =
      if floor_price v m > ceiling_price v m then floor_price v m else ceiling_price v m := rfl

lemma compute_price_core_floor_le_ceiling (v : VehicleQuoteInput) (d : ℤ) (w : Bool)
    (m : Option ℚ) (ml : ℚ) :
    (compute_price_core v d w m ml).floorP ≤ (compute_price_core v d w m ml).ceilingP := by
  rw [compute_price_core_floorP, compute_price_core_ceilingP]
  split_ifs with h
  · exact le_refl _
  · exact le_of_not_lt h

lemma compute_price_core_finalP_shape (v : VehicleQuoteInput) (d : ℤ) (w : Bool)
    (m : Option ℚ) (ml : ℚ) :
    ∃ x : ℚ, (compute_price_core v d w m ml).finalP =
      max ((compute_price_core v d w m ml).floorP)
        (min x ((compute_price_core v d w m ml).ceilingP)) := ⟨_, rfl⟩

/-- C1: for every vehicle priced by `compute_vehicle_price` on the non-cached,
non-error path, the returned daily price lies between the computed floor and
the computed ceiling, where the ceiling has first been raised to the floor
whenever the floor exceeded it (profit-first override). -/
theorem c1_final_price_within_guardrails (v : VehicleQuoteInput) (d : ℤ) (w : Bool)
    (m : Option ℚ) (ml : ℚ) :
    ∃ b : PriceBreakdown,
      (compute_vehicle_price v d w m (Except.ok ml)).breakdown = some b ∧
      (compute_vehicle_price v d w m (Except.ok ml)).daily_price = b.finalP ∧
      b.floorP = floor_price v m ∧
      b.ceilingP = max (ceiling_price v m) (floor_price v m) ∧
      b.floorP ≤ b.finalP ∧ b.finalP ≤ b.ceilingP := by
  refine ⟨compute_price_core v d w m ml, rfl, rfl, rfl, ?_, ?_, ?_⟩
  · rw [compute_price_core_ceilingP]
    rcases lt_or_ge (ceiling_price v m) (floor_price v m) with h | h
    · rw [if_pos h, max_eq_right h.le]
    · rw [if_neg (not_lt.mpr h), max_eq_left h]
  · obtain ⟨x, hx⟩ := compute_price_core_finalP_shape v d w m ml
    rw [hx]
    exact le_max_left _ _
  · obtain ⟨x, hx⟩ := compute_price_core_finalP_shape v d w m ml
    rw [hx]
    exact max_le (compute_price_core_floor_le_ceiling v d w m ml) (min_le_right _ _)

/-- C7 counterexample: at utilization rate exactly 0.3 the code returns the
factor 0.95 of the upper band, not the 0.90 the claim states for rates ≤ 0.3. -/
theorem c7_counterexample_boundary :
    calculate_utilization_factor (3/10) = 19/20 ∧ ((19:ℚ)/20) ≠ 9/10 := by
  constructor
  · norm_num [calculate_utilization_factor]
  · norm_num

/-- C7 amended: the utilization bands use strict upper bounds: a rate < 0.3
yields 0.90, in [0.3, 0.5) yields 0.95, in [0.5, 0.7) yields 1.00, in
[0.7, 0.85) yields 1.10, and ≥ 0.85 yields 1.20 — at the exact boundary
values 0.3, 0.5, 0.7, 0.85 the upper-band multiplier applies. -/
theorem c7_utilization_bands (u : ℚ) :
    (u < 3/10 → calculate_utilization_factor u = 9/10) ∧
    (3/10 ≤ u → u < 1/2 → calculate_utilization_factor u = 19/20) ∧
    (1/2 ≤ u → u < 7/10 → calculate_utilization_factor u = 1) ∧
    (7/10 ≤ u → u < 17/20 → calculate_utilization_factor u = 11/10) ∧
    (17/20 ≤ u → calculate_utilization_factor u = 6/5) := by
  unfold calculate_utilization_factor
  refine ⟨?_, ?_, ?_, ?_, ?_⟩ <;> intros <;> split_ifs <;> first | rfl | linarith

theorem c7_utilization_bands_witness :
    (0:ℚ) < 3/10 ∧ calculate_utilization_factor 0 = 9/10 :=
  ⟨by norm_num, (c7_utilization_bands 0).1 (by norm_num)⟩

/-- The concrete vehicle of the C8 counterexample: base rate 100, three-day
rental, City branch, so the rule price is 100 × 0.97 = 97 ≠ 100. -/
def c8_vehicle : VehicleQuoteInput :=
  { vehicle_id := "veh-c8", class_bucket := "Sedan",
    base_daily_rate := 100, cost_per_day := 50, branch_type := some "City" }

/-- C8 counterexample: when the numeric predictor fails, the code returns the
base daily rate (100), not the rule price (97), and writes no pricing decision
record at all — so no record carries `model_version = fallback`. -/
theorem c8_counterexample_fallback :
    (compute_vehicle_price c8_vehicle 3 false none (Except.error ())).daily_price = 100 ∧
    quote_rule_price c8_vehicle 3 false = 97 ∧
    (compute_vehicle_price c8_vehicle 3 false none (Except.error ())).daily_price ≠
      quote_rule_price c8_vehicle 3 false ∧
    (compute_vehicle_price c8_vehicle 3 false none (Except.error ())).decision_model_version
      = none := by
  have hair : is_airport_branch (some "City") = false := by decide
  have hrule : quote_rule_price c8_vehicle 3 false = 97 := by
    norm_num [quote_rule_price, c8_vehicle, hair]
  refine ⟨rfl, hrule, ?_, rfl⟩
  rw [hrule]
  norm_num [compute_vehicle_price, c8_vehicle]

/-- C8 amended: when the numeric predictor raises, `compute_vehicle_price`
catches the exception and returns the base daily rate (total = base × days)
with an error breakdown, writing no pricing decision record; decision records
are only written on the success path and always carry
`model_version = "onnx_v1"`. -/
theorem c8_predictor_failure_path (v : VehicleQuoteInput) (d : ℤ) (w : Bool)
    (m : Option ℚ) :
    compute_vehicle_price v d w m (Except.error ()) =
      ⟨v.base_daily_rate, v.base_daily_rate * (d : ℚ), none, none, true, false⟩ ∧
    ∀ ml : ℚ, (compute_vehicle_price v d w m (Except.ok ml)).decision_model_version
      = some "onnx_v1" :=
  ⟨rfl, fun _ => rfl⟩

/-- C10: a request accepted by the `/quote` endpoint (dropoff strictly after
pickup, pickup date not in the past) is priced with
`duration_days = max(1, whole days between pickup and dropoff)`; an interval
shorter than 24 hours (1440 minutes) is priced as exactly 1 day with duration
key D1, and is accepted, never priced as 0 days. -/
theorem c10_subday_one_day (p dr pd today : ℤ) (h1 : p < dr) (h2 : today ≤ pd) :
    quote_accepted p dr pd today = true ∧
    quote_duration_days p dr = max 1 (Int.fdiv (dr - p) 1440) ∧
    1 ≤ quote_duration_days p dr ∧
    (dr - p < 1440 → quote_duration_days p dr = 1 ∧
      map_duration_to_key (quote_duration_days p dr) = "D1") := by
  refine ⟨?_, rfl, le_max_left _ _, ?_⟩
  · simp [quote_accepted, h1, h2]
  · intro hlt
    have hfd : Int.fdiv (dr - p) 1440 = 0 := by
      rw [Int.fdiv_eq_ediv _ (by norm_num)]
      omega
    have hq : quote_duration_days p dr = 1 := by
      rw [quote_duration_days, hfd]
      norm_num
    exact ⟨hq, by rw [hq]; rfl⟩

theorem c10_subday_one_day_witness :
    quote_accepted 0 600 5 0 = true ∧ quote_duration_days 0 600 = 1 ∧
    map_duration_to_key (quote_duration_days 0 600) = "D1" := by
  have h := c10_subday_one_day 0 600 5 0 (by norm_num) (by norm_num)
  exact ⟨h.1, (h.2.2.2 (by norm_num)).1, (h.2.2.2 (by norm_num)).2⟩

lemma cost_floor_eq (v : VehicleQuoteInput) (hc : 0 ≤ v.cost_per_day) :
    cost_floor v = if 0 < v.cost_per_day then v.cost_per_day * (115/100)
                   else v.base_daily_rate * (70/100) := by
  unfold cost_floor
  by_cases h : 0 < v.cost_per_day
  · rw [if_pos h.ne', if_pos h]
    ring
  · have h0 : v.cost_per_day = 0 := le_antisymm (not_lt.mp h) hc
    rw [if_neg (by simp [h0]), if_neg h]

/-- C2: the guardrail formulas of `compute_vehicle_price`, for any vehicle with
a non-negative cost (the data model requires Decimal costs): with market data
(median > 0) the ceiling is median × 1.10 and the floor is
max(cost_floor, median × 0.85); without market data the floor is
max(cost_floor, base × 0.80) and the ceiling base × 1.10, where cost_floor is
cost_per_day × 1.15 when the cost is positive, else base × 0.70. -/
theorem c2_guardrail_formulas (v : VehicleQuoteInput) (m : Option ℚ)
    (hc : 0 ≤ v.cost_per_day) :
    (∀ med : ℚ, m = some med → 0 < med →
        floor_price v m = max (if 0 < v.cost_per_day then v.cost_per_day * (115/100)
            else v.base_daily_rate * (70/100)) (med * (85/100)) ∧
        ceiling_price v m = med * (110/100)) ∧
    ((m = none ∨ ∃ med, m = some med ∧ med ≤ 0) →
        floor_price v m = max (if 0 < v.cost_per_day then v.cost_per_day * (115/100)
            else v.base_daily_rate * (70/100)) (v.base_daily_rate * (80/100)) ∧
        ceiling_price v m = v.base_daily_rate * (110/100)) := by
  constructor
  · rintro med rfl hmed
    have hd : has_competitor_data (some med) = true := by
      simp [has_competitor_data, hmed, hmed.ne']
    constructor
    · rw [floor_price, if_pos hd, cost_floor_eq v hc]
      simp only [Option.getD_some]
    · rw [ceiling_price, if_pos hd]
      simp only [Option.getD_some]
      ring
  · rintro (rfl | ⟨med, rfl, hmed⟩)
    · have hd : has_competitor_data none = false := rfl
      exact ⟨by rw [floor_price, if_neg (by simp [hd]), cost_floor_eq v hc],
             by rw [ceiling_price, if_neg (by simp [hd])]⟩
    · have hd : has_competitor_data (some med) = false := by
        simp [has_competitor_data, not_lt.mpr hmed]
      exact ⟨by rw [floor_price, if_neg (by simp [hd]), cost_floor_eq v hc],
             by rw [ceiling_price, if_neg (by simp [hd])]⟩

/-- Concrete vehicle for the C2 witness (scenario S2 of the spec). -/
def c2_vehicle : VehicleQuoteInput :=
  { vehicle_id := "veh-c2", class_bucket := "SUV",
    base_daily_rate := 300, cost_per_day := 180, branch_type := some "Airport" }

theorem c2_guardrail_formulas_witness :
    floor_price c2_vehicle (some 280) = 238 ∧ ceiling_price c2_vehicle (some 280) = 308 := by
  have h := (c2_guardrail_formulas c2_vehicle (some 280)
    (by norm_num [c2_vehicle])).1 280 rfl (by norm_num)
  constructor
  · rw [h.1]
    norm_num [c2_vehicle, max_def]
  · rw [h.2]
    norm_num

lemma is_weekend_weekday_true (wd : ℕ) (h : wd = 3 ∨ wd = 4 ∨ wd = 5) :
    is_weekend_weekday wd = true := by
  rcases h with h | h | h <;> simp [is_weekend_weekday, h]

lemma is_weekend_weekday_false (wd : ℕ) (h : ¬ (wd = 3 ∨ wd = 4 ∨ wd = 5)) :
    is_weekend_weekday wd = false := by
  push_neg at h
  simp [is_weekend_weekday, h.1, h.2.1, h.2.2]

lemma quote_rule_price_spec (v : VehicleQuoteInput) (d : ℤ) (wd : ℕ)
    (hb : v.branch_type = some "Airport" ∨ v.branch_type = some "City" ∨ v.branch_type = none) :
    quote_rule_price v d (is_weekend_weekday wd) =
      v.base_daily_rate *
        (if 3 ≤ d ∧ d ≤ 6 then 97/100
         else if 7 ≤ d ∧ d ≤ 29 then 93/100
         else if 30 ≤ d then 85/100 else 1) *
        (if v.branch_type = some "Airport" then 105/100 else 1) *
        (if wd = 3 ∨ wd = 4 ∨ wd = 5 then 103/100 else 1) := by
  have hA : is_airport_branch (some "Airport") = true := by decide
  have hC : is_airport_branch (some "City") = false := by decide
  have hN : is_airport_branch none = false := rfl
  by_cases hwd : wd = 3 ∨ wd = 4 ∨ wd = 5
  · rw [if_pos hwd]
    rcases hb with h | h | h <;>
      simp [quote_rule_price, h, hA, hC, hN, is_weekend_weekday_true wd hwd] <;>
      split_ifs <;> first | omega | norm_num
  · rw [if_neg hwd]
    rcases hb with h | h | h <;>
      simp [quote_rule_price, h, hA, hC, hN, is_weekend_weekday_false wd hwd] <;>
      split_ifs <;> first | omega | norm_num

/-- C6: on the success path the blended price equals
0.6 × rule_price + 0.4 × ml_price, where the rule price is the base daily
rate times a 0.97 factor for 3-6 day rentals, 0.93 for 7-29 days, 0.85 for
30+ days, times 1.05 for an Airport branch, times 1.03 when the pickup
weekday is Thursday, Friday or Saturday.  `branch_type` ranges over the wire
domain {Airport, City, absent}. -/
theorem c6_blend_rule_price (v : VehicleQuoteInput) (d : ℤ) (wd : ℕ)
    (m : Option ℚ) (ml : ℚ)
    (hb : v.branch_type = some "Airport" ∨ v.branch_type = some "City" ∨ v.branch_type = none) :
    ∃ b : PriceBreakdown,
      (compute_vehicle_price v d (is_weekend_weekday wd) m (Except.ok ml)).breakdown = some b ∧
      b.rule_price = quote_rule_price v d (is_weekend_weekday wd) ∧
      b.blended = (6/10) *
        (v.base_daily_rate *
          (if 3 ≤ d ∧ d ≤ 6 then 97/100
           else if 7 ≤ d ∧ d ≤ 29 then 93/100
           else if 30 ≤ d then 85/100 else 1) *
          (if v.branch_type = some "Airport" then 105/100 else 1) *
          (if wd = 3 ∨ wd = 4 ∨ wd = 5 then 103/100 else 1))
        + (4/10) * ml := by
  refine ⟨compute_price_core v d (is_weekend_weekday wd) m ml, rfl, rfl, ?_⟩
  show (6/10) * quote_rule_price v d (is_weekend_weekday wd) + (4/10) * ml = _
  rw [quote_rule_price_spec v d wd hb]

/-- Concrete vehicle for the C6 witness (scenario S2 of the spec: 7-day
weekend rental at an Airport branch). -/
def c6_vehicle : VehicleQuoteInput :=
  { vehicle_id := "veh-c6", class_bucket := "SUV",
    base_daily_rate := 300, cost_per_day := 180, branch_type := some "Airport" }

theorem c6_blend_rule_price_witness :
    ∃ b : PriceBreakdown,
      (compute_vehicle_price c6_vehicle 7 (is_weekend_weekday 4) none
        (Except.ok 250)).breakdown = some b ∧
      b.rule_price = quote_rule_price c6_vehicle 7 (is_weekend_weekday 4) ∧
      b.blended = (6/10) * (300 * (93/100) * (105/100) * (103/100)) + (4/10) * 250 := by
  obtain ⟨b, h1, h2, h3⟩ := c6_blend_rule_price c6_vehicle 7 4 none 250 (Or.inl rfl)
  refine ⟨b, h1, h2, ?_⟩
  rw [h3]
  norm_num [c6_vehicle]

/-- The failing input of C3: base 100, cost 1040/23 (cost floor exactly 52),
market median 530/11 (ceiling exactly 53), one day, City branch, ml price 60.
The interval [52, 53] contains no multiple of the step 5. -/
def c3_vehicle : VehicleQuoteInput :=
  { vehicle_id := "veh-c3", class_bucket := "Sedan",
    base_daily_rate := 100, cost_per_day := 1040/23, branch_type := some "City" }

/-- C3: the code comment asserts the final price is always a multiple of the
step, but at the failing input the bounded rounding cannot reach a multiple of
5 inside [floor, ceiling] and the final clamp returns the ceiling 53: the
returned daily price is 53 with step 5 and clamped ≥ 50, and 53 is not an
integer multiple of 5. -/
theorem c3_step_rounding_code_bug :
    (compute_vehicle_price c3_vehicle 1 false (some (530/11)) (Except.ok 60)).daily_price = 53 ∧
    (∃ b : PriceBreakdown,
      (compute_vehicle_price c3_vehicle 1 false (some (530/11)) (Except.ok 60)).breakdown
        = some b ∧ b.step = 5 ∧ b.clamped = 53 ∧ (50:ℚ) ≤ b.clamped) ∧
    ¬ ∃ k : ℤ, (53 : ℚ) = k * 5 := by
  have hrule : quote_rule_price c3_vehicle 1 false = 100 := by
    have hair : is_airport_branch (some "City") = false := by decide
    norm_num [quote_rule_price, c3_vehicle, hair]
  have hfl : floor_price c3_vehicle (some (530/11)) = 52 := by
    norm_num [floor_price, c3_vehicle, has_competitor_data, cost_floor, max_def]
  have hce : ceiling_price c3_vehicle (some (530/11)) = 53 := by
    norm_num [ceiling_price, c3_vehicle, has_competitor_data]
  have hceil : (⌈(52:ℚ)/5⌉ : ℤ) = 11 := by
    rw [Int.ceil_eq_iff]
    constructor <;> norm_num
  have hfloor : (⌊(53:ℚ)/5⌋ : ℤ) = 10 := by norm_num
  have hb : compute_price_core c3_vehicle 1 false (some (530/11)) 60 =
      ⟨60, 100, 84, 52, 53, 53, 5, 53⟩ := by
    simp only [compute_price_core, hrule, hfl, hce]
    norm_num [max_def, min_def, pyRound, hceil, hfloor]
  refine ⟨?_, ⟨compute_price_core c3_vehicle 1 false (some (530/11)) 60, rfl, ?_, ?_, ?_⟩, ?_⟩
  · show (compute_price_core c3_vehicle 1 false (some (530/11)) 60).finalP = 53
    rw [hb]
  · rw [hb]
  · rw [hb]
  · rw [hb]
    norm_num
  · rintro ⟨k, hk⟩
    have hk2 : (53:ℤ) = k * 5 := by exact_mod_cast hk
    omega

/-- The concrete state of the C4 counterexample: vehicle at base rate 150 with
cost_per_day 100. -/
def c4_state : MutState := ⟨some ⟨some 150, some 100⟩, []⟩

/-- C4 counterexample: applying a recommendation of 110 to a vehicle with
cost_per_day 100 succeeds and mutates the vehicle, although
110 < 100 × 1.15 = 115 — the code only rejects rates strictly below the cost
itself, not below cost × 1.15. -/
theorem c4_counterexample_cost_floor :
    (apply_pricing_recommendation c4_state 110).1 = ApplyStatus.applied ∧
    ((apply_pricing_recommendation c4_state 110).2).vehicle = some ⟨some 110, some 100⟩ ∧
    (110:ℚ) < 100 * (115/100) := by
  refine ⟨?_, ?_, by norm_num⟩ <;>
    norm_num [apply_pricing_recommendation, apply_cost_check_fails,
      update_vehicle_base_rate, old_rate_for_history, c4_state]

/-- C4 amended: the invariant enforced on mutation through the
apply-recommendation endpoint is `new_rate ≥ cost_per_day` (not
cost_per_day × 1.15): every call with a positive new rate strictly below a
set, positive cost_per_day is rejected with HTTP 400 and leaves the vehicle
and history unchanged; `update_vehicle_base_rate` itself validates only
`new_rate > 0`. -/
theorem c4_cost_floor_enforced (st : MutState) (veh : VehicleDoc) (c r : ℚ)
    (hv : st.vehicle = some veh) (hc : veh.cost_per_day = some c) (hc0 : 0 < c)
    (hr0 : 0 < r) (hlt : r < c) :
    apply_pricing_recommendation st r = (ApplyStatus.http_bad_request, st) := by
  simp [apply_pricing_recommendation, apply_cost_check_fails, hv, hc, hr0, hc0,
    hc0.ne', hlt]

theorem c4_cost_floor_enforced_witness :
    apply_pricing_recommendation c4_state 90 = (ApplyStatus.http_bad_request, c4_state) :=
  c4_cost_floor_enforced c4_state ⟨some 150, some 100⟩ 100 90 rfl rfl
    (by norm_num) (by norm_num) (by norm_num)

/-- C5: the apply-recommendation operation is idempotent: whenever a call
returns `applied`, it appended exactly one history record, and repeating the
same call on the resulting state returns `no_change` and leaves the state
(vehicle and history) entirely unchanged. -/
theorem c5_apply_idempotent (st : MutState) (r : ℚ)
    (h : (apply_pricing_recommendation st r).1 = ApplyStatus.applied) :
    (apply_pricing_recommendation (apply_pricing_recommendation st r).2 r).1
      = ApplyStatus.no_change ∧
    (apply_pricing_recommendation (apply_pricing_recommendation st r).2 r).2
      = (apply_pricing_recommendation st r).2 ∧
    ((apply_pricing_recommendation st r).2).history.length = st.history.length + 1 := by
  by_cases hr : 0 < r
  case neg =>
    exfalso
    simp [apply_pricing_recommendation, hr] at h
  case pos =>
  obtain ⟨sv, sh⟩ := st
  rcases hveh : sv with _ | veh
  · exfalso
    subst hveh
    simp [apply_pricing_recommendation, hr] at h
  subst hveh
  rcases hccv : apply_cost_check_fails veh.cost_per_day r with _ | _
  · by_cases hne : veh.base_daily_rate = some r
    · exfalso
      simp [apply_pricing_recommendation, update_vehicle_base_rate, hr,
        not_le.mpr hr, hccv, hne] at h
    · have happ : apply_pricing_recommendation ⟨some veh, sh⟩ r =
          (ApplyStatus.applied,
           ⟨some { veh with base_daily_rate := some r },
            sh ++ [⟨old_rate_for_history veh.base_daily_rate, r,
                    "apply_recommendation"⟩]⟩) := by
        simp [apply_pricing_recommendation, update_vehicle_base_rate, hr,
          not_le.mpr hr, hccv, hne]
      rw [happ]
      refine ⟨?_, ?_, by simp⟩ <;>
        simp [apply_pricing_recommendation, update_vehicle_base_rate, hr,
          not_le.mpr hr, hccv]
  · exfalso
    simp [apply_pricing_recommendation, hr, hccv] at h

/-- The concrete state of the C5 witness: vehicle at base rate 150 with
cost_per_day 100, empty history (spec scenario S4). -/
def c5_state : MutState := ⟨some ⟨some 150, some 100⟩, []⟩

theorem c5_apply_idempotent_witness :
    (apply_pricing_recommendation (apply_pricing_recommendation c5_state 175).2 175).1
      = ApplyStatus.no_change ∧
    (apply_pricing_recommendation (apply_pricing_recommendation c5_state 175).2 175).2
      = (apply_pricing_recommendation c5_state 175).2 ∧
    ((apply_pricing_recommendation c5_state 175).2).history.length
      = c5_state.history.length + 1 :=
  c5_apply_idempotent c5_state 175 (by
    norm_num [apply_pricing_recommendation, apply_cost_check_fails,
      update_vehicle_base_rate, old_rate_for_history, c5_state])

/-- The concrete offer of the C9 counterexample: price 100.7, whose truncation
(100) and nearest-integer rounding (101) differ. -/
def c9_offer : Offer := ⟨"yelo", "riyadh", "sedan", 1007/10⟩

/-- C9 counterexample: the hash key uses `int(price)` (truncation), not
`round(price)` — at price 100.7 the code key ends in 100, the spec key in
101 — and two identical offers arriving in the same batch are both written
(the dedup query sees only the committed store), so two snapshots with the
same hash land inside one 6-hour window. -/
theorem c9_counterexample_hash :
    generate_offer_hash "yelo" "riyadh" "sedan" (1007/10) ≠
      spec_offer_hash_key "yelo" "riyadh" "sedan" (1007/10) ∧
    (save_offers_batch [] [c9_offer, c9_offer] 0).1 =
      [⟨generate_offer_hash "yelo" "riyadh" "sedan" (1007/10), 0⟩,
       ⟨generate_offer_hash "yelo" "riyadh" "sedan" (1007/10), 0⟩] ∧
    (save_offers_batch [] [c9_offer, c9_offer] 0).2.1 = 2 := by
  refine ⟨?_, rfl, rfl⟩
  have h1 : pyInt (1007/10) = 100 := by norm_num [pyInt]
  have h2 : pyRound (1007/10) = 101 := by norm_num [pyRound]
  rw [generate_offer_hash, spec_offer_hash_key, h1, h2]
  decide

/-- C9 amended: the dedup hash key is
`provider|branch|class|int(price)` with the price truncated toward zero
(equal to its floor for the non-negative prices the parser accepts), and the
save loop of one batch writes exactly the offers whose hash has no committed
snapshot inside the 6-hour window — offers of the same uncommitted batch are
not checked against each other. -/
theorem c9_dedup_batch :
    (∀ provider branch vehicle_class : String, ∀ price : ℚ, 0 ≤ price →
        generate_offer_hash provider branch vehicle_class price =
          provider ++ "|" ++ branch ++ "|" ++ vehicle_class ++ "|" ++ toString ⌊price⌋) ∧
    (∀ store : List Snapshot, ∀ offers : List Offer, ∀ now : ℤ,
        (save_offers_batch store offers now).1 =
          (offers.filter (fun o =>
            !(check_duplicate_offer store
                (generate_offer_hash o.provider o.city o.category o.price) now 6))).map
            (fun o => ⟨generate_offer_hash o.provider o.city o.category o.price, now⟩) ∧
        (save_offers_batch store offers now).2.1 =
          (offers.filter (fun o =>
            !(check_duplicate_offer store
                (generate_offer_hash o.provider o.city o.category o.price) now 6))).length ∧
        (save_offers_batch store offers now).2.1 + (save_offers_batch store offers now).2.2
          = offers.length) := by
  constructor
  · intro p b c q hq
    unfold generate_offer_hash pyInt
    rw [if_pos hq]
  · intro store offers now
    induction offers with
    | nil => simp [save_offers_batch]
    | cons o rest ih =>
      obtain ⟨ih1, ih2, ih3⟩ := ih
      rcases hd : check_duplicate_offer store
          (generate_offer_hash o.provider o.city o.category o.price) now 6 with _ | _
      · simp only [save_offers_batch, hd, Bool.false_eq_true, if_false,
          List.filter_cons, Bool.not_false, if_true, List.map_cons, List.length_cons]
        exact ⟨by rw [ih1], by rw [ih2], by omega⟩
      · simp only [save_offers_batch, hd, if_true, List.filter_cons,
          Bool.not_true, Bool.false_eq_true, if_false, List.length_cons]
        exact ⟨ih1, ih2, by omega⟩

theorem c9_dedup_batch_witness :
    generate_offer_hash "alpha" "beta" "gamma" 5 =
      "alpha" ++ "|" ++ "beta" ++ "|" ++ "gamma" ++ "|" ++ toString ⌊(5:ℚ)⌋ ∧
    (save_offers_batch [] [] 0).1 = [] :=
  ⟨c9_dedup_batch.1 "alpha" "beta" "gamma" 5 (by norm_num),
   by rw [(c9_dedup_batch.2 [] [] 0).1]; rfl⟩
